import Mathlib

/-!
Shallow embedding of `src/app.py`: a Flask gateway over an SQLite Cloud
database holding two tables, `temperature` and `motion`, plus one
OpenAI-backed summarization route.

Modelling choices, all taken from the source:
* a table row is a record with the native columns of the table;
* the database is a pair of row lists; every query the handlers run is a
  plain `SELECT`, modelled with `List.filter`, key deduplication for
  `GROUP BY`, and `List.insertionSort` for `ORDER BY`;
* text comparison (`ORDER BY timestamp`, `BETWEEN`) is the order on
  `String`, which on the ASCII `YYYY-MM-DD HH:MM:SS` texts of this schema
  agrees with the byte order SQLite uses for `TEXT` values;
* the fallible store connection and the external chat-completion call are
  `Except String` values whose `error` case carries the message of the
  exception that the corresponding Python call would raise; each handler
  is a pure function of its request inputs and that outcome, mirroring the
  `try`/`except` bodies line by line;
* `flask.jsonify` output is a `Json` value; SQL numbers (including `AVG`
  results) are rationals, so the arithmetic-mean claims are exact.
-/

/-- JSON values as produced by `flask.jsonify`. -/
inductive Json where
  | null : Json
  | bool : Bool → Json
  | num : ℚ → Json
  | str : String → Json
  | arr : List Json → Json
  | obj : List (String × Json) → Json

/-- An HTTP response: status code and JSON body.  Flask defaults to 200 for
a bare `jsonify(...)` return; the handlers attach explicit 400/500 codes in
their validation and `except` branches. -/
structure Resp where
  status : Nat
  body : Json

/-- The error envelope every handler produces on failure: a one-field
JSON object under the `error` key. -/
def errBody (m : String) : Json := Json.obj [("error", Json.str m)]

/-- Build the `jsonify(obj with error m), code` response pair. -/
def mkError (m : String) (code : Nat) : Resp := ⟨code, errBody m⟩

/-- A row of the `temperature` table: columns `id`, `timestamp`,
`temperature`. -/
structure TempRow where
  id : Int
  timestamp : String
  temperature : ℚ
  deriving DecidableEq

/-- A row of the `motion` table: columns `id`, `timestamp`,
`motion_detected`. -/
structure MotionRow where
  id : Int
  timestamp : String
  motion_detected : Int
  deriving DecidableEq

/-- The two tables of the `finalProject` database. -/
structure DB where
  temperature : List TempRow
  motion : List MotionRow
  deriving DecidableEq

/-- Python truthiness of a JSON value, as tested by the `if not data:`
guard in `get_summary`. -/
def pyTruthy : Json → Bool
  | Json.null => false
  | Json.bool b => b
  | Json.num q => decide (q ≠ 0)
  | Json.str s => decide (s ≠ "")
  | Json.arr l => !l.isEmpty
  | Json.obj l => !l.isEmpty

/-- Truthiness of `request.json`: an absent or unparsed body is `None`,
which is falsy. -/
def pyTruthyBody : Option Json → Bool
  | none => false
  | some j => pyTruthy j

/-- Falsiness of `request.args.get(k)`: `None` when the query parameter is
absent, and the empty string is also falsy. -/
def pyFalsyArg : Option String → Bool
  | none => true
  | some s => decide (s = "")

/-- First `n` characters of a character list. -/
def takeChars : Nat → List Char → List Char
  | 0, _ => []
  | _, [] => []
  | n + 1, c :: cs => c :: takeChars n cs

/-- Character list without its first `n` characters. -/
def dropChars : Nat → List Char → List Char
  | 0, cs => cs
  | _, [] => []
  | n + 1, _ :: cs => dropChars n cs

/-- Whitespace test of the characters Python strips, by code point:
space, newline, tab, carriage return. -/
def isWSChar (c : Char) : Bool :=
  c.toNat == 32 || c.toNat == 10 || c.toNat == 9 || c.toNat == 13

/-- Remove leading whitespace characters. -/
def dropWhileWS : List Char → List Char
  | [] => []
  | c :: cs => if isWSChar c then dropWhileWS cs else c :: cs

/-- Python `str.strip()`: the string without leading and trailing
whitespace. -/
def pyStrip (s : String) : String :=
  ⟨(dropWhileWS ((dropWhileWS s.data).reverse)).reverse⟩

/-- SQLite `DATE(timestamp)` on the well-formed `YYYY-MM-DD HH:MM:SS`
texts of this schema: the 10-character date prefix. -/
def sqlDate (ts : String) : String := ⟨takeChars 10 ts.data⟩

/-- SQLite `STRFTIME` with format `%Y-%m`: the 7-character year-month
prefix of the timestamp text. -/
def sqlYearMonth (ts : String) : String := ⟨takeChars 7 ts.data⟩

/-- SQLite `STRFTIME` with format `%H`: the two hour characters of the
timestamp text. -/
def sqlHour (ts : String) : String := ⟨takeChars 2 (dropChars 11 ts.data)⟩

/-- Numeric value of a decimal-digit character list. -/
def parseNat (cs : List Char) : Nat :=
  cs.foldl (fun n c => n * 10 + (c.toNat - 48)) 0

/-- Year field of the timestamp text. -/
def tsYear (ts : String) : Nat := parseNat (takeChars 4 ts.data)

/-- Month field of the timestamp text. -/
def tsMonth (ts : String) : Nat := parseNat (takeChars 2 (dropChars 5 ts.data))

/-- Day-of-month field of the timestamp text. -/
def tsDay (ts : String) : Nat := parseNat (takeChars 2 (dropChars 8 ts.data))

/-- Gregorian leap-year test. -/
def isLeap (y : Nat) : Bool := (y % 4 == 0 && y % 100 != 0) || y % 400 == 0

/-- Days of the year strictly before month `m` (1-based). -/
def daysBeforeMonth (leap : Bool) (m : Nat) : Nat :=
  [0, 31, 59, 90, 120, 151, 181, 212, 243, 273, 304, 334].getD (m - 1) 0 +
    (if leap && decide (2 < m) then 1 else 0)

/-- 0-based day of the year. -/
def yday0 (y m d : Nat) : Nat := daysBeforeMonth (isLeap y) m + (d - 1)

/-- Days since 1970-01-01 (the sensor data all lies after the epoch). -/
def daysSinceEpoch (y m d : Nat) : Nat :=
  365 * (y - 1970) + ((y - 1) / 4 - (y - 1) / 100 + (y - 1) / 400) -
    (1969 / 4 - 1969 / 100 + 1969 / 400) + yday0 y m d

/-- Monday-based weekday, 0 = Monday; 1970-01-01 was a Thursday. -/
def weekdayMon (y m d : Nat) : Nat := (daysSinceEpoch y m d + 3) % 7

/-- SQLite `STRFTIME` `%W`: week of the year with Monday as its first day;
days before the first Monday of the year fall in week 00. -/
def weekOfYear (y m d : Nat) : Nat := (yday0 y m d + 7 - weekdayMon y m d) / 7

/-- Decimal digit character, for digit values 0 to 9. -/
def digitChar (n : Nat) : Char := Char.ofNat (48 + n)

/-- The dash character of the `%Y-%W` format. -/
def dashChar : Char := Char.ofNat 45

/-- Two-digit zero-padded decimal rendering used by `STRFTIME` for the
week number (always below 54). -/
def twoDigits (n : Nat) : List Char := [digitChar (n / 10 % 10), digitChar (n % 10)]

/-- SQLite `STRFTIME` with format `%Y-%W` on the timestamp text. -/
def sqlYearWeek (ts : String) : String :=
  ⟨takeChars 4 ts.data ++
    dashChar :: twoDigits (weekOfYear (tsYear ts) (tsMonth ts) (tsDay ts))⟩

/-- SQL `ORDER BY key DESC` as a relation on rows. -/
def keyDesc {α β : Type} [LinearOrder β] (f : α → β) : α → α → Prop :=
  fun a b => f b ≤ f a

/-- SQL `ORDER BY key ASC` as a relation on rows. -/
def keyAsc {α β : Type} [LinearOrder β] (f : α → β) : α → α → Prop :=
  fun a b => f a ≤ f b

instance keyDescDecRel {α β : Type} [LinearOrder β] (f : α → β) :
    DecidableRel (keyDesc f) :=
  fun a b => inferInstanceAs (Decidable (f b ≤ f a))

instance keyAscDecRel {α β : Type} [LinearOrder β] (f : α → β) :
    DecidableRel (keyAsc f) :=
  fun a b => inferInstanceAs (Decidable (f a ≤ f b))

instance keyDescTotal {α β : Type} [LinearOrder β] (f : α → β) :
    IsTotal α (keyDesc f) :=
  ⟨fun a b => le_total (f b) (f a)⟩

instance keyAscTotal {α β : Type} [LinearOrder β] (f : α → β) :
    IsTotal α (keyAsc f) :=
  ⟨fun a b => le_total (f a) (f b)⟩

instance keyDescTrans {α β : Type} [LinearOrder β] (f : α → β) :
    IsTrans α (keyDesc f) :=
  ⟨fun _ _ _ h1 h2 => le_trans h2 h1⟩

instance keyAscTrans {α β : Type} [LinearOrder β] (f : α → β) :
    IsTrans α (keyAsc f) :=
  ⟨fun _ _ _ h1 h2 => le_trans h1 h2⟩

/-- SQL `GROUP BY key` with aggregate `agg` and the result rows ordered by
`r` on the bucket key: one `(key, aggregate of the rows mapping to key)`
pair per distinct key value. -/
def bucketList {α β : Type} (key : α → String) (agg : List α → β)
    (r : String → String → Prop) [DecidableRel r] (rows : List α) :
    List (String × β) :=
  (((rows.map key).dedup).insertionSort r).map
    (fun b => (b, agg (rows.filter (fun x => decide (key x = b)))))

/-- SQL `AVG(temperature)` over a group of rows: the exact arithmetic
mean. -/
@[reducible] def avgTemp (rows : List TempRow) : ℚ :=
  ((rows.map (fun r => r.temperature)).sum) / (rows.length : ℚ)

/-- SQL `COUNT(*)` over a group of rows. -/
@[reducible] def countRows {α : Type} (rows : List α) : ℕ := rows.length

/-- Serialization of a `temperature` row with all native columns, as
`dict(zip(columns, row))` produces. -/
def tempRowJson (r : TempRow) : Json :=
  Json.obj [("id", Json.num (r.id : ℚ)), ("timestamp", Json.str r.timestamp),
    ("temperature", Json.num r.temperature)]

/-- Serialization of a `motion` row with all native columns. -/
def motionRowJson (r : MotionRow) : Json :=
  Json.obj [("id", Json.num (r.id : ℚ)), ("timestamp", Json.str r.timestamp),
    ("motion_detected", Json.num (r.motion_detected : ℚ))]

/-- Serialization of an average bucket: `(bucket label, average_temp)`. -/
def avgObj (label : String) (p : String × ℚ) : Json :=
  Json.obj [(label, Json.str p.1), ("average_temp", Json.num p.2)]

/-- Serialization of a count bucket: `(bucket label, motion_count)`. -/
def countObj (label : String) (p : String × ℕ) : Json :=
  Json.obj [(label, Json.str p.1), ("motion_count", Json.num (p.2 : ℚ))]

/-- Result rows of `SELECT * FROM temperature ORDER BY timestamp DESC
LIMIT 100`. -/
def latestTempRows (rows : List TempRow) : List TempRow :=
  (rows.insertionSort (keyDesc (fun r => r.timestamp))).take 100

/-- The rows the `LIMIT 100` clause cuts off. -/
def latestTempRest (rows : List TempRow) : List TempRow :=
  (rows.insertionSort (keyDesc (fun r => r.timestamp))).drop 100

/-- Result rows of `SELECT * FROM motion ORDER BY timestamp DESC
LIMIT 100`. -/
def latestMotionRows (rows : List MotionRow) : List MotionRow :=
  (rows.insertionSort (keyDesc (fun r => r.timestamp))).take 100

/-- The motion rows the `LIMIT 100` clause cuts off. -/
def latestMotionRest (rows : List MotionRow) : List MotionRow :=
  (rows.insertionSort (keyDesc (fun r => r.timestamp))).drop 100

/-- Result rows of the parameterized range query on `temperature`:
`WHERE timestamp BETWEEN ? AND ? ORDER BY timestamp DESC`. -/
def tempRangeRows (s e : String) (rows : List TempRow) : List TempRow :=
  (rows.filter (fun r => decide (s ≤ r.timestamp) && decide (r.timestamp ≤ e))).insertionSort
    (keyDesc (fun r => r.timestamp))

/-- Result rows of the parameterized range query on `motion`. -/
def motionRangeRows (s e : String) (rows : List MotionRow) : List MotionRow :=
  (rows.filter (fun r => decide (s ≤ r.timestamp) && decide (r.timestamp ≤ e))).insertionSort
    (keyDesc (fun r => r.timestamp))

/-- Buckets of `GROUP BY DATE(timestamp) ORDER BY DATE(timestamp) DESC`
with `AVG(temperature)`. -/
@[reducible] def dailyTempBuckets (rows : List TempRow) : List (String × ℚ) :=
  bucketList (fun r => sqlDate r.timestamp) avgTemp (keyDesc (fun s : String => s)) rows

/-- Buckets of the weekly temperature average (`STRFTIME` `%Y-%W` key,
descending). -/
@[reducible] def weeklyTempBuckets (rows : List TempRow) : List (String × ℚ) :=
  bucketList (fun r => sqlYearWeek r.timestamp) avgTemp (keyDesc (fun s : String => s)) rows

/-- Buckets of the monthly temperature average (`STRFTIME` `%Y-%m` key,
descending). -/
@[reducible] def monthlyTempBuckets (rows : List TempRow) : List (String × ℚ) :=
  bucketList (fun r => sqlYearMonth r.timestamp) avgTemp (keyDesc (fun s : String => s)) rows

/-- Buckets of `GROUP BY DATE(timestamp) ORDER BY DATE(timestamp) DESC`
with `COUNT(*)` on `motion`. -/
@[reducible] def motionDayBuckets (rows : List MotionRow) : List (String × ℕ) :=
  bucketList (fun r => sqlDate r.timestamp) countRows (keyDesc (fun s : String => s)) rows

/-- Buckets of the weekly motion count (`STRFTIME` `%Y-%W` key,
descending). -/
@[reducible] def motionWeekBuckets (rows : List MotionRow) : List (String × ℕ) :=
  bucketList (fun r => sqlYearWeek r.timestamp) countRows (keyDesc (fun s : String => s)) rows

/-- Buckets of the hourly motion count (`STRFTIME` `%H` key, ascending:
the one route ordered `ASC`). -/
@[reducible] def motionHourBuckets (rows : List MotionRow) : List (String × ℕ) :=
  bucketList (fun r => sqlHour r.timestamp) countRows (keyAsc (fun s : String => s)) rows

/-- POST `/summarize`.  `request.json` is `body`; the guard is the Python
truthiness test `if not data:`; `llm` is the outcome of the
chat-completion call, whose returned text the handler strips of
surrounding whitespace before wrapping it under the `summary` key. -/
def get_summary (body : Option Json) (llm : Except String String) : Resp :=
  if pyTruthyBody body = false then mkError "No data provided" 400
  else
    match llm with
    | Except.error e => mkError e 500
    | Except.ok s => ⟨200, Json.obj [("summary", Json.str (pyStrip s))]⟩

/-- GET `/data/temperature`. -/
def get_temperature_data (store : Except String DB) : Resp :=
  match store with
  | Except.error e => mkError e 500
  | Except.ok db => ⟨200, Json.arr ((latestTempRows db.temperature).map tempRowJson)⟩

/-- GET `/data/motion`. -/
def get_motion_data (store : Except String DB) : Resp :=
  match store with
  | Except.error e => mkError e 500
  | Except.ok db => ⟨200, Json.arr ((latestMotionRows db.motion).map motionRowJson)⟩

/-- GET `/data/temperature/average/day`. -/
def get_daily_temperature_average (store : Except String DB) : Resp :=
  match store with
  | Except.error e => mkError e 500
  | Except.ok db =>
      ⟨200, Json.arr ((dailyTempBuckets db.temperature).map (avgObj "date"))⟩

/-- GET `/data/temperature/average/week`. -/
def get_weekly_temperature_average (store : Except String DB) : Resp :=
  match store with
  | Except.error e => mkError e 500
  | Except.ok db =>
      ⟨200, Json.arr ((weeklyTempBuckets db.temperature).map (avgObj "week"))⟩

/-- GET `/data/temperature/average/month`. -/
def get_monthly_temperature_average (store : Except String DB) : Resp :=
  match store with
  | Except.error e => mkError e 500
  | Except.ok db =>
      ⟨200, Json.arr ((monthlyTempBuckets db.temperature).map (avgObj "month"))⟩

/-- GET `/data/motion/by-day`. -/
def get_motion_by_day (store : Except String DB) : Resp :=
  match store with
  | Except.error e => mkError e 500
  | Except.ok db =>
      ⟨200, Json.arr ((motionDayBuckets db.motion).map (countObj "date"))⟩

/-- GET `/data/temperature/by-day`, identical query to the
`average/day` route. -/
def get_temperature_by_day (store : Except String DB) : Resp :=
  match store with
  | Except.error e => mkError e 500
  | Except.ok db =>
      ⟨200, Json.arr ((dailyTempBuckets db.temperature).map (avgObj "date"))⟩

/-- GET `/data/motion/by-hour`, the one route ordered ascending. -/
def get_motion_by_hour (store : Except String DB) : Resp :=
  match store with
  | Except.error e => mkError e 500
  | Except.ok db =>
      ⟨200, Json.arr ((motionHourBuckets db.motion).map (countObj "hour"))⟩

/-- GET `/data/motion/by-week`. -/
def get_motion_by_week (store : Except String DB) : Resp :=
  match store with
  | Except.error e => mkError e 500
  | Except.ok db =>
      ⟨200, Json.arr ((motionWeekBuckets db.motion).map (countObj "week"))⟩

/-- GET `/data/temperature/range`.  The two query parameters are read
before any cursor is opened, and a falsy value in either aborts with 400;
afterwards the parameterized `BETWEEN` query runs. -/
def get_temperature_in_range (start_date end_date : Option String)
    (store : Except String DB) : Resp :=
  if pyFalsyArg start_date || pyFalsyArg end_date then
    mkError "Start date and end date are required" 400
  else
    match store with
    | Except.error e => mkError e 500
    | Except.ok db =>
        ⟨200, Json.arr ((tempRangeRows (start_date.getD "") (end_date.getD "")
          db.temperature).map tempRowJson)⟩

/-- GET `/data/motion/range`. -/
def get_motion_in_range (start_date end_date : Option String)
    (store : Except String DB) : Resp :=
  if pyFalsyArg start_date || pyFalsyArg end_date then
    mkError "Start date and end date are required" 400
  else
    match store with
    | Except.error e => mkError e 500
    | Except.ok db =>
        ⟨200, Json.arr ((motionRangeRows (start_date.getD "") (end_date.getD "")
          db.motion).map motionRowJson)⟩

/-- GET `/data/temperature/peak`: `ORDER BY temperature DESC LIMIT 1`
with `fetchone`.  On an empty table `fetchone` yields `None` and
`dict(zip(columns, None))` raises a `TypeError` whose message the
`except` branch returns with status 500. -/
def get_peak_temperature (store : Except String DB) : Resp :=
  match store with
  | Except.error e => mkError e 500
  | Except.ok db =>
      match (db.temperature.insertionSort (keyDesc (fun r => r.temperature))).head? with
      | none => mkError "zip argument #2 must support iteration" 500
      | some r => ⟨200, tempRowJson r⟩

/-- The day buckets of `motion` ordered by `COUNT(*) DESC`; the relative
order the grouping step produced is irrelevant after this sort. -/
@[reducible] def motionPeakPairs (rows : List MotionRow) : List (String × ℕ) :=
  (motionDayBuckets rows).insertionSort (keyDesc (fun p => p.2))

/-- GET `/data/motion/peak`: `GROUP BY DATE(timestamp) ORDER BY COUNT(*)
DESC LIMIT 1` with `fetchone`, with the same empty-table `TypeError`
behaviour as the temperature peak. -/
def get_peak_motion (store : Except String DB) : Resp :=
  match store with
  | Except.error e => mkError e 500
  | Except.ok db =>
      match (motionPeakPairs db.motion).head? with
      | none => mkError "zip argument #2 must support iteration" 500
      | some p => ⟨200, countObj "date" p⟩

/-- The 14 implemented routes of the Flask app. -/
inductive Route where
  | summarize : Route
  | temperatureData : Route
  | motionData : Route
  | tempAvgDay : Route
  | tempAvgWeek : Route
  | tempAvgMonth : Route
  | motionByDay : Route
  | tempByDay : Route
  | motionByHour : Route
  | motionByWeek : Route
  | temperatureRange : Route
  | motionRange : Route
  | temperaturePeak : Route
  | motionPeak : Route

/-- Request-scoped inputs: the JSON body and chat-completion outcome used
by `/summarize`, and the query parameters used by the range routes. -/
structure Req where
  body : Option Json
  llm : Except String String
  start_date : Option String
  end_date : Option String

/-- The literal SQL text each route sends to the store, copied from the
source (`/summarize` issues no SQL). -/
def sqlOf : Route → List String
  | Route.summarize => []
  | Route.temperatureData =>
      ["SELECT * FROM temperature ORDER BY timestamp DESC LIMIT 100"]
  | Route.motionData =>
      ["SELECT * FROM motion ORDER BY timestamp DESC LIMIT 100"]
  | Route.tempAvgDay =>
      ["\n            SELECT DATE(timestamp) as date, AVG(temperature) as average_temp\n            FROM temperature\n            GROUP BY DATE(timestamp)\n            ORDER BY DATE(timestamp) DESC\n        "]
  | Route.tempAvgWeek =>
      ["\n            SELECT STRFTIME(\x27%Y-%W\x27, timestamp) as week, AVG(temperature) as average_temp\n            FROM temperature\n            GROUP BY STRFTIME(\x27%Y-%W\x27, timestamp)\n            ORDER BY STRFTIME(\x27%Y-%W\x27, timestamp) DESC\n        "]
  | Route.tempAvgMonth =>
      ["\n            SELECT STRFTIME(\x27%Y-%m\x27, timestamp) as month, AVG(temperature) as average_temp\n            FROM temperature\n            GROUP BY STRFTIME(\x27%Y-%m\x27, timestamp)\n            ORDER BY STRFTIME(\x27%Y-%m\x27, timestamp) DESC\n        "]
  | Route.motionByDay =>
      ["\n            SELECT DATE(timestamp) as date, COUNT(*) as motion_count\n            FROM motion\n            GROUP BY DATE(timestamp)\n            ORDER BY DATE(timestamp) DESC\n        "]
  | Route.tempByDay =>
      ["\n            SELECT DATE(timestamp) as date, AVG(temperature) as average_temp\n            FROM temperature\n            GROUP BY DATE(timestamp)\n            ORDER BY DATE(timestamp) DESC\n        "]
  | Route.motionByHour =>
      ["\n            SELECT STRFTIME(\x27%H\x27, timestamp) as hour, COUNT(*) as motion_count\n            FROM motion\n            GROUP BY STRFTIME(\x27%H\x27, timestamp)\n            ORDER BY STRFTIME(\x27%H\x27, timestamp) ASC\n        "]
  | Route.motionByWeek =>
      ["\n            SELECT STRFTIME(\x27%Y-%W\x27, timestamp) as week, COUNT(*) as motion_count\n            FROM motion\n            GROUP BY STRFTIME(\x27%Y-%W\x27, timestamp)\n            ORDER BY STRFTIME(\x27%Y-%W\x27, timestamp) DESC\n        "]
  | Route.temperatureRange =>
      ["\n            SELECT * FROM temperature\n            WHERE timestamp BETWEEN ? AND ?\n            ORDER BY timestamp DESC\n        "]
  | Route.motionRange =>
      ["\n            SELECT * FROM motion\n            WHERE timestamp BETWEEN ? AND ?\n            ORDER BY timestamp DESC\n        "]
  | Route.temperaturePeak =>
      ["SELECT * FROM temperature ORDER BY temperature DESC LIMIT 1"]
  | Route.motionPeak =>
      ["\n            SELECT DATE(timestamp) as date, COUNT(*) as motion_count\n            FROM motion\n            GROUP BY DATE(timestamp)\n            ORDER BY COUNT(*) DESC LIMIT 1\n        "]

/-- True when a SQL statement is a plain read-only `SELECT`: after leading
whitespace, its first keyword is `SELECT` up to letter case.  The mapped
numbers are the ASCII codes of the keyword letters. -/
def isReadOnlySelect (s : String) : Bool :=
  ((takeChars 6 (dropWhileWS s.data)).map
    (fun c => if 97 ≤ c.toNat && c.toNat ≤ 122 then c.toNat - 32 else c.toNat))
    == [83, 69, 76, 69, 67, 84]

/-- One request/response step of the gateway: dispatch to the handler over
a live store and thread the table state to the next request.  The tables
come out exactly as they went in, because every statement of `sqlOf` is a
`SELECT` and the process keeps no other per-request state. -/
def serve (r : Route) (q : Req) (db : DB) : Resp × DB :=
  (match r with
    | Route.summarize => get_summary q.body q.llm
    | Route.temperatureData => get_temperature_data (Except.ok db)
    | Route.motionData => get_motion_data (Except.ok db)
    | Route.tempAvgDay => get_daily_temperature_average (Except.ok db)
    | Route.tempAvgWeek => get_weekly_temperature_average (Except.ok db)
    | Route.tempAvgMonth => get_monthly_temperature_average (Except.ok db)
    | Route.motionByDay => get_motion_by_day (Except.ok db)
    | Route.tempByDay => get_temperature_by_day (Except.ok db)
    | Route.motionByHour => get_motion_by_hour (Except.ok db)
    | Route.motionByWeek => get_motion_by_week (Except.ok db)
    | Route.temperatureRange =>
        get_temperature_in_range q.start_date q.end_date (Except.ok db)
    | Route.motionRange => get_motion_in_range q.start_date q.end_date (Except.ok db)
    | Route.temperaturePeak => get_peak_temperature (Except.ok db)
    | Route.motionPeak => get_peak_motion (Except.ok db), db)

/-- Claim-side predicate for C1 only: the request body is a JSON object
carrying a top-level `data` field.  The source never tests this; its guard
is Python truthiness of the whole body. -/
def hasDataField : Option Json → Bool
  | some (Json.obj fields) => fields.any (fun p => p.1 == "data")
  | _ => false

/-- A small concrete store used by the witnesses. -/
def dbEx : DB :=
  ⟨[⟨1, "2024-01-05 10:00:00", 21⟩, ⟨2, "2024-01-06 11:30:00", 23⟩,
    ⟨3, "2024-02-01 09:15:00", 19⟩],
   [⟨1, "2024-01-05 10:05:00", 1⟩, ⟨2, "2024-01-05 18:20:00", 1⟩,
    ⟨3, "2024-01-07 07:45:00", 1⟩]⟩

/-- An empty store, used by the C10 witness. -/
def dbEmpty : DB := ⟨[], []⟩

/-- Sortedness of the `ORDER BY key DESC` model. -/
theorem pairwise_sort_keyDesc {α β : Type} [LinearOrder β] (f : α → β) (l : List α) :
    (l.insertionSort (keyDesc f)).Pairwise (fun a b => f b ≤ f a) :=
  List.sorted_insertionSort (keyDesc f) l

/-- Sortedness of the `ORDER BY key ASC` model. -/
theorem pairwise_sort_keyAsc {α β : Type} [LinearOrder β] (f : α → β) (l : List α) :
    (l.insertionSort (keyAsc f)).Pairwise (fun a b => f a ≤ f b) :=
  List.sorted_insertionSort (keyAsc f) l

/-- The head of a descending sort dominates every element of the input
list on the sort key. -/
theorem head?_sort_keyDesc_max {α β : Type} [LinearOrder β] (f : α → β)
    {l : List α} {x : α}
    (hx : (l.insertionSort (keyDesc f)).head? = some x) :
    x ∈ l ∧ ∀ y ∈ l, f y ≤ f x := by
  cases h : l.insertionSort (keyDesc f) with
  | nil => rw [h] at hx; simp at hx
  | cons a t =>
      rw [h] at hx
      simp only [List.head?_cons, Option.some.injEq] at hx
      subst hx
      have hp : (a :: t).Pairwise (keyDesc f) := by
        rw [← h]; exact List.sorted_insertionSort (keyDesc f) l
      constructor
      · have ha : a ∈ l.insertionSort (keyDesc f) := by
          rw [h]; exact List.mem_cons_self a t
        exact (List.mem_insertionSort (keyDesc f)).1 ha
      · intro y hy
        have hmem : y ∈ a :: t := by
          rw [← h]; exact (List.mem_insertionSort (keyDesc f)).2 hy
        rcases List.mem_cons.1 hmem with heq | hyt
        · exact le_of_eq (congrArg f heq)
        · exact List.rel_of_pairwise_cons hp hyt

/-- The labels of a bucket list are the deduplicated keys in sort
order. -/
theorem bucketList_labels {α β : Type} (key : α → String) (agg : List α → β)
    (r : String → String → Prop) [DecidableRel r] (rows : List α) :
    (bucketList key agg r rows).map Prod.fst =
      ((rows.map key).dedup).insertionSort r := by
  have hid : (Prod.fst ∘ fun b : String =>
      (b, agg (rows.filter (fun x => decide (key x = b))))) = fun b => b := rfl
  rw [bucketList, List.map_map, hid, List.map_id']

/-- A label appears in a bucket list exactly when some row maps to it. -/
theorem bucketList_mem_iff {α β : Type} (key : α → String) (agg : List α → β)
    (r : String → String → Prop) [DecidableRel r] (rows : List α) (b : String) :
    (∃ v, (b, v) ∈ bucketList key agg r rows) ↔ ∃ x ∈ rows, key x = b := by
  constructor
  · rintro ⟨v, hv⟩
    rcases List.mem_map.1 hv with ⟨b2, hb2, heq⟩
    injection heq with h1 h2
    subst h1
    have hk : b2 ∈ rows.map key :=
      List.mem_dedup.1 ((List.mem_insertionSort r).1 hb2)
    rcases List.mem_map.1 hk with ⟨x, hx, hkx⟩
    exact ⟨x, hx, hkx⟩
  · rintro ⟨x, hx, rfl⟩
    refine ⟨agg (rows.filter (fun y => decide (key y = key x))), ?_⟩
    apply List.mem_map_of_mem
    exact (List.mem_insertionSort r).2
      (List.mem_dedup.2 (List.mem_map_of_mem key hx))

/-- The value stored at a bucket is the aggregate of exactly the rows
mapping to that bucket. -/
theorem bucketList_value {α β : Type} (key : α → String) (agg : List α → β)
    (r : String → String → Prop) [DecidableRel r] (rows : List α)
    (b : String) (v : β) (h : (b, v) ∈ bucketList key agg r rows) :
    v = agg (rows.filter (fun x => decide (key x = b))) := by
  rcases List.mem_map.1 h with ⟨b2, _, heq⟩
  injection heq with h1 h2
  subst h1
  exact h2.symm

/-- The labels of a descending bucket list are pairwise descending. -/
theorem bucketList_labels_desc {α β : Type} (key : α → String)
    (agg : List α → β) (rows : List α) :
    ((bucketList key agg (keyDesc (fun s : String => s)) rows).map Prod.fst).Pairwise
      (fun a b : String => b ≤ a) := by
  rw [bucketList_labels]
  exact List.sorted_insertionSort (keyDesc (fun s : String => s)) _

/-- The labels of an ascending bucket list are pairwise ascending. -/
theorem bucketList_labels_asc {α β : Type} (key : α → String)
    (agg : List α → β) (rows : List α) :
    ((bucketList key agg (keyAsc (fun s : String => s)) rows).map Prod.fst).Pairwise
      (fun a b : String => a ≤ b) := by
  rw [bucketList_labels]
  exact List.sorted_insertionSort (keyAsc (fun s : String => s)) _

/-- C1, counterexample to the claim as frozen.  The guard of `/summarize`
is `if not data:`, Python truthiness of the whole body, not a test for a
`data` field: a body with no `data` field but some other field is truthy
and proceeds to a 200 on success, instead of the claimed 400; and because
the handler returns the stripped model text verbatim, a success whose
model text is all whitespace yields a 200 whose `summary` is the empty
string, against the claimed non-empty summary. -/
theorem C1_counterexample :
    (hasDataField (some (Json.obj [("foo", Json.num 1)])) = false ∧
      (get_summary (some (Json.obj [("foo", Json.num 1)]))
        (Except.ok "All clear.")).status = 200) ∧
    ((get_summary (some (Json.obj [("data", Json.num 1)]))
        (Except.ok "  ")).status = 200 ∧
      (get_summary (some (Json.obj [("data", Json.num 1)]))
        (Except.ok "  ")).body = Json.obj [("summary", Json.str "")]) := by
  refine ⟨⟨rfl, rfl⟩, rfl, rfl⟩

/-- C1, amended: a POST to `/summarize` whose body is absent or Python-falsy
gets the 400 envelope; any truthy body proceeds, and when the external call
succeeds with text `s` the response is 200 with the stripped text of `s`
under the `summary` key (so the summary is non-empty only when `s` has a
non-whitespace character). -/
theorem C1_amended (body : Option Json) (llm : Except String String) :
    (pyTruthyBody body = false →
      get_summary body llm = mkError "No data provided" 400) ∧
    (pyTruthyBody body = true → ∀ s, llm = Except.ok s →
      get_summary body llm = ⟨200, Json.obj [("summary", Json.str (pyStrip s))]⟩) := by
  constructor
  · intro h
    simp [get_summary, h]
  · intro h s hs
    subst hs
    simp [get_summary, h]

/-- C1, witness for the amended theorem at concrete inputs. -/
theorem C1_amended_witness :
    get_summary none (Except.ok "All clear.") = mkError "No data provided" 400 ∧
    get_summary (some (Json.obj [("data", Json.num 1)])) (Except.ok " ok ") =
      ⟨200, Json.obj [("summary", Json.str (pyStrip " ok "))]⟩ :=
  ⟨(C1_amended none (Except.ok "All clear.")).1 rfl,
   (C1_amended (some (Json.obj [("data", Json.num 1)])) (Except.ok " ok ")).2
     rfl " ok " rfl⟩

/-- C2: a range request with either bound absent or empty gets status 400
with the error envelope, and the response does not depend on the store at
all, so no SQL is issued for it. -/
theorem C2_missing_bound (s e : Option String) (st st2 : Except String DB)
    (h : pyFalsyArg s = true ∨ pyFalsyArg e = true) :
    (get_temperature_in_range s e st =
        mkError "Start date and end date are required" 400 ∧
      get_temperature_in_range s e st = get_temperature_in_range s e st2 ∧
      (get_temperature_in_range s e st).body =
        errBody "Start date and end date are required") ∧
    (get_motion_in_range s e st =
        mkError "Start date and end date are required" 400 ∧
      get_motion_in_range s e st = get_motion_in_range s e st2 ∧
      (get_motion_in_range s e st).body =
        errBody "Start date and end date are required") := by
  have hc : (pyFalsyArg s || pyFalsyArg e) = true := by
    rcases h with h | h <;> simp [h]
  refine ⟨⟨?_, ?_, ?_⟩, ?_, ?_, ?_⟩ <;>
    simp [get_temperature_in_range, get_motion_in_range, hc, mkError]

/-- C2, witness: one request with `start_date` absent, one with it empty. -/
theorem C2_missing_bound_witness :
    get_temperature_in_range none (some "2024-01-31") (Except.ok dbEx) =
      mkError "Start date and end date are required" 400 ∧
    get_motion_in_range (some "") (some "2024-01-31") (Except.error "boom") =
      mkError "Start date and end date are required" 400 :=
  ⟨(C2_missing_bound none (some "2024-01-31") (Except.ok dbEx) (Except.ok dbEx)
      (Or.inl rfl)).1.1,
   (C2_missing_bound (some "") (some "2024-01-31") (Except.error "boom")
      (Except.error "boom") (Or.inl rfl)).2.1⟩

/-- C8: on every route, an exception from the store (or, for `/summarize`,
from the external call) surfaces as status 500 with the exception message
passed through verbatim in the error envelope; nothing is retried or
swallowed. -/
theorem C8_upstream_failure (m : String) (body : Option Json)
    (hb : pyTruthyBody body = true) (s e : Option String)
    (hs : pyFalsyArg s = false) (he : pyFalsyArg e = false) :
    get_summary body (Except.error m) = mkError m 500 ∧
    get_temperature_data (Except.error m) = mkError m 500 ∧
    get_motion_data (Except.error m) = mkError m 500 ∧
    get_daily_temperature_average (Except.error m) = mkError m 500 ∧
    get_weekly_temperature_average (Except.error m) = mkError m 500 ∧
    get_monthly_temperature_average (Except.error m) = mkError m 500 ∧
    get_motion_by_day (Except.error m) = mkError m 500 ∧
    get_temperature_by_day (Except.error m) = mkError m 500 ∧
    get_motion_by_hour (Except.error m) = mkError m 500 ∧
    get_motion_by_week (Except.error m) = mkError m 500 ∧
    get_temperature_in_range s e (Except.error m) = mkError m 500 ∧
    get_motion_in_range s e (Except.error m) = mkError m 500 ∧
    get_peak_temperature (Except.error m) = mkError m 500 ∧
    get_peak_motion (Except.error m) = mkError m 500 := by
  have hc : (pyFalsyArg s || pyFalsyArg e) = false := by simp [hs, he]
  refine ⟨?_, rfl, rfl, rfl, rfl, rfl, rfl, rfl, rfl, rfl, ?_, ?_, rfl, rfl⟩
  · simp [get_summary, hb]
  · simp [get_temperature_in_range, hc]
  · simp [get_motion_in_range, hc]

/-- C8, witness at a concrete message, body and pair of bounds. -/
theorem C8_upstream_failure_witness :
    get_summary (some (Json.obj [("data", Json.str "x")])) (Except.error "boom") =
      mkError "boom" 500 ∧
    get_temperature_in_range (some "2024-01-01") (some "2024-01-31")
      (Except.error "boom") = mkError "boom" 500 :=
  ⟨(C8_upstream_failure "boom" (some (Json.obj [("data", Json.str "x")])) rfl
      (some "2024-01-01") (some "2024-01-31") rfl rfl).1,
   (C8_upstream_failure "boom" (some (Json.obj [("data", Json.str "x")])) rfl
      (some "2024-01-01") (some "2024-01-31") rfl
      rfl).2.2.2.2.2.2.2.2.2.2.1⟩

/-- C10: on an empty table the peak routes never return 200: `fetchone`
yields no row, building the result record raises, and the handler answers
with the 500 error envelope carrying the TypeError message. -/
theorem C10_peak_empty (db : DB) (ht : db.temperature = []) (hm : db.motion = []) :
    get_peak_temperature (Except.ok db) =
      mkError "zip argument #2 must support iteration" 500 ∧
    get_peak_motion (Except.ok db) =
      mkError "zip argument #2 must support iteration" 500 := by
  constructor
  · simp [get_peak_temperature, ht]
  · simp [get_peak_motion, motionPeakPairs, motionDayBuckets, bucketList, hm]

/-- C10, witness on the empty store. -/
theorem C10_peak_empty_witness :
    get_peak_temperature (Except.ok dbEmpty) =
      mkError "zip argument #2 must support iteration" 500 ∧
    get_peak_motion (Except.ok dbEmpty) =
      mkError "zip argument #2 must support iteration" 500 :=
  C10_peak_empty dbEmpty rfl rfl

/-- C3: a range request with both bounds present answers 200 with exactly
the rows of the table whose timestamp lies inclusively between the two
bounds — every such row, only such rows (a permutation of the filtered
table), ordered newest first. -/
theorem C3_range_rows (db : DB) (s e : Option String)
    (hs : pyFalsyArg s = false) (he : pyFalsyArg e = false) :
    (get_temperature_in_range s e (Except.ok db) =
        ⟨200, Json.arr ((tempRangeRows (s.getD "") (e.getD "")
          db.temperature).map tempRowJson)⟩ ∧
      (tempRangeRows (s.getD "") (e.getD "") db.temperature).Perm
        (db.temperature.filter (fun r =>
          decide (s.getD "" ≤ r.timestamp) && decide (r.timestamp ≤ e.getD ""))) ∧
      (∀ r : TempRow,
        r ∈ tempRangeRows (s.getD "") (e.getD "") db.temperature ↔
          r ∈ db.temperature ∧ s.getD "" ≤ r.timestamp ∧ r.timestamp ≤ e.getD "") ∧
      (tempRangeRows (s.getD "") (e.getD "") db.temperature).Pairwise
        (fun a b => b.timestamp ≤ a.timestamp)) ∧
    (get_motion_in_range s e (Except.ok db) =
        ⟨200, Json.arr ((motionRangeRows (s.getD "") (e.getD "")
          db.motion).map motionRowJson)⟩ ∧
      (motionRangeRows (s.getD "") (e.getD "") db.motion).Perm
        (db.motion.filter (fun r =>
          decide (s.getD "" ≤ r.timestamp) && decide (r.timestamp ≤ e.getD ""))) ∧
      (∀ r : MotionRow,
        r ∈ motionRangeRows (s.getD "") (e.getD "") db.motion ↔
          r ∈ db.motion ∧ s.getD "" ≤ r.timestamp ∧ r.timestamp ≤ e.getD "") ∧
      (motionRangeRows (s.getD "") (e.getD "") db.motion).Pairwise
        (fun a b => b.timestamp ≤ a.timestamp)) := by
  have hc : (pyFalsyArg s || pyFalsyArg e) = false := by simp [hs, he]
  refine ⟨⟨?_, ?_, ?_, ?_⟩, ?_, ?_, ?_, ?_⟩
  · simp [get_temperature_in_range, hc]
  · exact List.perm_insertionSort _ _
  · intro r
    simp [tempRangeRows, List.mem_insertionSort, List.mem_filter]
  · exact pairwise_sort_keyDesc _ _
  · simp [get_motion_in_range, hc]
  · exact List.perm_insertionSort _ _
  · intro r
    simp [motionRangeRows, List.mem_insertionSort, List.mem_filter]
  · exact pairwise_sort_keyDesc _ _

/-- C3, witness at the concrete January 2024 window of the store. -/
theorem C3_range_rows_witness :
    get_temperature_in_range (some "2024-01-01") (some "2024-01-31")
      (Except.ok dbEx) =
      ⟨200, Json.arr ((tempRangeRows "2024-01-01" "2024-01-31"
        dbEx.temperature).map tempRowJson)⟩ ∧
    get_motion_in_range (some "2024-01-01") (some "2024-01-31")
      (Except.ok dbEx) =
      ⟨200, Json.arr ((motionRangeRows "2024-01-01" "2024-01-31"
        dbEx.motion).map motionRowJson)⟩ :=
  ⟨(C3_range_rows dbEx (some "2024-01-01") (some "2024-01-31") rfl rfl).1.1,
   (C3_range_rows dbEx (some "2024-01-01") (some "2024-01-31") rfl rfl).2.1⟩

/-- C4: the raw-fetch routes answer 200 with at most 100 rows, sorted by
timestamp descending, serialized with all native columns, and those rows
together with the cut-off remainder permute the table while every cut-off
row has a timestamp at most that of every returned row (the returned rows
are the most recent ones). -/
theorem C4_raw_fetch (db : DB) :
    (get_temperature_data (Except.ok db) =
        ⟨200, Json.arr ((latestTempRows db.temperature).map tempRowJson)⟩ ∧
      (latestTempRows db.temperature).length ≤ 100 ∧
      (latestTempRows db.temperature).Pairwise
        (fun a b => b.timestamp ≤ a.timestamp) ∧
      (latestTempRows db.temperature ++ latestTempRest db.temperature).Perm
        db.temperature ∧
      (∀ r ∈ latestTempRest db.temperature,
        ∀ x ∈ latestTempRows db.temperature, r.timestamp ≤ x.timestamp)) ∧
    (get_motion_data (Except.ok db) =
        ⟨200, Json.arr ((latestMotionRows db.motion).map motionRowJson)⟩ ∧
      (latestMotionRows db.motion).length ≤ 100 ∧
      (latestMotionRows db.motion).Pairwise
        (fun a b => b.timestamp ≤ a.timestamp) ∧
      (latestMotionRows db.motion ++ latestMotionRest db.motion).Perm db.motion ∧
      (∀ r ∈ latestMotionRest db.motion,
        ∀ x ∈ latestMotionRows db.motion, r.timestamp ≤ x.timestamp)) := by
  refine ⟨⟨rfl, ?_, ?_, ?_, ?_⟩, rfl, ?_, ?_, ?_, ?_⟩
  · simp [latestTempRows, List.length_take]
  · exact List.Pairwise.sublist (List.take_sublist _ _) (pairwise_sort_keyDesc _ _)
  · rw [latestTempRows, latestTempRest, List.take_append_drop]
    exact List.perm_insertionSort _ _
  · have hsorted := pairwise_sort_keyDesc (fun r : TempRow => r.timestamp)
      db.temperature
    rw [← List.take_append_drop 100
      (db.temperature.insertionSort (keyDesc (fun r => r.timestamp)))] at hsorted
    have hcross := (List.pairwise_append.1 hsorted).2.2
    exact fun r hr x hx => hcross x hx r hr
  · simp [latestMotionRows, List.length_take]
  · exact List.Pairwise.sublist (List.take_sublist _ _) (pairwise_sort_keyDesc _ _)
  · rw [latestMotionRows, latestMotionRest, List.take_append_drop]
    exact List.perm_insertionSort _ _
  · have hsorted := pairwise_sort_keyDesc (fun r : MotionRow => r.timestamp)
      db.motion
    rw [← List.take_append_drop 100
      (db.motion.insertionSort (keyDesc (fun r => r.timestamp)))] at hsorted
    have hcross := (List.pairwise_append.1 hsorted).2.2
    exact fun r hr x hx => hcross x hx r hr

/-- C4, witness at the concrete store. -/
theorem C4_raw_fetch_witness :
    (latestTempRows dbEx.temperature).length ≤ 100 ∧
    get_motion_data (Except.ok dbEx) =
      ⟨200, Json.arr ((latestMotionRows dbEx.motion).map motionRowJson)⟩ :=
  ⟨(C4_raw_fetch dbEx).1.2.1, (C4_raw_fetch dbEx).2.1⟩

/-- C6: every periodic-aggregate route returns its buckets ordered by
bucket label descending, except the motion-by-hour route, whose labels
are ordered ascending. -/
theorem C6_bucket_order (db : DB) :
    (get_daily_temperature_average (Except.ok db) =
        ⟨200, Json.arr ((dailyTempBuckets db.temperature).map (avgObj "date"))⟩ ∧
      ((dailyTempBuckets db.temperature).map Prod.fst).Pairwise
        (fun a b : String => b ≤ a)) ∧
    (get_weekly_temperature_average (Except.ok db) =
        ⟨200, Json.arr ((weeklyTempBuckets db.temperature).map (avgObj "week"))⟩ ∧
      ((weeklyTempBuckets db.temperature).map Prod.fst).Pairwise
        (fun a b : String => b ≤ a)) ∧
    (get_monthly_temperature_average (Except.ok db) =
        ⟨200, Json.arr ((monthlyTempBuckets db.temperature).map (avgObj "month"))⟩ ∧
      ((monthlyTempBuckets db.temperature).map Prod.fst).Pairwise
        (fun a b : String => b ≤ a)) ∧
    (get_motion_by_day (Except.ok db) =
        ⟨200, Json.arr ((motionDayBuckets db.motion).map (countObj "date"))⟩ ∧
      ((motionDayBuckets db.motion).map Prod.fst).Pairwise
        (fun a b : String => b ≤ a)) ∧
    (get_temperature_by_day (Except.ok db) =
        ⟨200, Json.arr ((dailyTempBuckets db.temperature).map (avgObj "date"))⟩ ∧
      ((dailyTempBuckets db.temperature).map Prod.fst).Pairwise
        (fun a b : String => b ≤ a)) ∧
    (get_motion_by_week (Except.ok db) =
        ⟨200, Json.arr ((motionWeekBuckets db.motion).map (countObj "week"))⟩ ∧
      ((motionWeekBuckets db.motion).map Prod.fst).Pairwise
        (fun a b : String => b ≤ a)) ∧
    (get_motion_by_hour (Except.ok db) =
        ⟨200, Json.arr ((motionHourBuckets db.motion).map (countObj "hour"))⟩ ∧
      ((motionHourBuckets db.motion).map Prod.fst).Pairwise
        (fun a b : String => a ≤ b)) := by
  refine ⟨⟨rfl, ?_⟩, ⟨rfl, ?_⟩, ⟨rfl, ?_⟩, ⟨rfl, ?_⟩, ⟨rfl, ?_⟩, ⟨rfl, ?_⟩,
    rfl, ?_⟩ <;>
    first
      | exact bucketList_labels_desc _ _ _
      | exact bucketList_labels_asc _ _ _

/-- C6, witness at the concrete store. -/
theorem C6_bucket_order_witness :
    get_motion_by_hour (Except.ok dbEx) =
      ⟨200, Json.arr ((motionHourBuckets dbEx.motion).map (countObj "hour"))⟩ ∧
    ((dailyTempBuckets dbEx.temperature).map Prod.fst).Pairwise
      (fun a b : String => b ≤ a) :=
  ⟨(C6_bucket_order dbEx).2.2.2.2.2.2.1, (C6_bucket_order dbEx).1.2⟩


/-- A label is a daily temperature bucket exactly when some row maps to
it. -/
theorem dailyTempBuckets_mem (db : DB) :
    ∀ b : String, (∃ v, (b, v) ∈ dailyTempBuckets db.temperature) ↔
      ∃ x ∈ db.temperature, sqlDate x.timestamp = b :=
  fun b => bucketList_mem_iff (fun r => sqlDate r.timestamp) avgTemp
    (keyDesc (fun s : String => s)) db.temperature b

/-- The daily temperature bucket value is the arithmetic mean of its
rows. -/
theorem dailyTempBuckets_val (db : DB) :
    ∀ b v, (b, v) ∈ dailyTempBuckets db.temperature →
      v = ((db.temperature.filter
            (fun x => decide (sqlDate x.timestamp = b))).map
              (fun x => x.temperature)).sum /
          ((db.temperature.filter
            (fun x => decide (sqlDate x.timestamp = b))).length : ℚ) :=
  fun b v h => bucketList_value (fun r => sqlDate r.timestamp) avgTemp
    (keyDesc (fun s : String => s)) db.temperature b v h

/-- A label is a weekly temperature bucket exactly when some row maps to
it. -/
theorem weeklyTempBuckets_mem (db : DB) :
    ∀ b : String, (∃ v, (b, v) ∈ weeklyTempBuckets db.temperature) ↔
      ∃ x ∈ db.temperature, sqlYearWeek x.timestamp = b :=
  fun b => bucketList_mem_iff (fun r => sqlYearWeek r.timestamp) avgTemp
    (keyDesc (fun s : String => s)) db.temperature b

/-- The weekly temperature bucket value is the arithmetic mean of its
rows. -/
theorem weeklyTempBuckets_val (db : DB) :
    ∀ b v, (b, v) ∈ weeklyTempBuckets db.temperature →
      v = ((db.temperature.filter
            (fun x => decide (sqlYearWeek x.timestamp = b))).map
              (fun x => x.temperature)).sum /
          ((db.temperature.filter
            (fun x => decide (sqlYearWeek x.timestamp = b))).length : ℚ) :=
  fun b v h => bucketList_value (fun r => sqlYearWeek r.timestamp) avgTemp
    (keyDesc (fun s : String => s)) db.temperature b v h

/-- A label is a monthly temperature bucket exactly when some row maps to
it. -/
theorem monthlyTempBuckets_mem (db : DB) :
    ∀ b : String, (∃ v, (b, v) ∈ monthlyTempBuckets db.temperature) ↔
      ∃ x ∈ db.temperature, sqlYearMonth x.timestamp = b :=
  fun b => bucketList_mem_iff (fun r => sqlYearMonth r.timestamp) avgTemp
    (keyDesc (fun s : String => s)) db.temperature b

/-- The monthly temperature bucket value is the arithmetic mean of its
rows. -/
theorem monthlyTempBuckets_val (db : DB) :
    ∀ b v, (b, v) ∈ monthlyTempBuckets db.temperature →
      v = ((db.temperature.filter
            (fun x => decide (sqlYearMonth x.timestamp = b))).map
              (fun x => x.temperature)).sum /
          ((db.temperature.filter
            (fun x => decide (sqlYearMonth x.timestamp = b))).length : ℚ) :=
  fun b v h => bucketList_value (fun r => sqlYearMonth r.timestamp) avgTemp
    (keyDesc (fun s : String => s)) db.temperature b v h

/-- A label is a daily motion bucket exactly when some row maps to it. -/
theorem motionDayBuckets_mem (db : DB) :
    ∀ b : String, (∃ v, (b, v) ∈ motionDayBuckets db.motion) ↔
      ∃ x ∈ db.motion, sqlDate x.timestamp = b :=
  fun b => bucketList_mem_iff (fun r => sqlDate r.timestamp) countRows
    (keyDesc (fun s : String => s)) db.motion b

/-- The daily motion bucket value is the count of its rows. -/
theorem motionDayBuckets_val (db : DB) :
    ∀ b v, (b, v) ∈ motionDayBuckets db.motion →
      v = (db.motion.filter (fun x => decide (sqlDate x.timestamp = b))).length :=
  fun b v h => bucketList_value (fun r => sqlDate r.timestamp) countRows
    (keyDesc (fun s : String => s)) db.motion b v h

/-- A label is an hourly motion bucket exactly when some row maps to
it. -/
theorem motionHourBuckets_mem (db : DB) :
    ∀ b : String, (∃ v, (b, v) ∈ motionHourBuckets db.motion) ↔
      ∃ x ∈ db.motion, sqlHour x.timestamp = b :=
  fun b => bucketList_mem_iff (fun r => sqlHour r.timestamp) countRows
    (keyAsc (fun s : String => s)) db.motion b

/-- The hourly motion bucket value is the count of its rows. -/
theorem motionHourBuckets_val (db : DB) :
    ∀ b v, (b, v) ∈ motionHourBuckets db.motion →
      v = (db.motion.filter (fun x => decide (sqlHour x.timestamp = b))).length :=
  fun b v h => bucketList_value (fun r => sqlHour r.timestamp) countRows
    (keyAsc (fun s : String => s)) db.motion b v h

/-- A label is a weekly motion bucket exactly when some row maps to
it. -/
theorem motionWeekBuckets_mem (db : DB) :
    ∀ b : String, (∃ v, (b, v) ∈ motionWeekBuckets db.motion) ↔
      ∃ x ∈ db.motion, sqlYearWeek x.timestamp = b :=
  fun b => bucketList_mem_iff (fun r => sqlYearWeek r.timestamp) countRows
    (keyDesc (fun s : String => s)) db.motion b

/-- The weekly motion bucket value is the count of its rows. -/
theorem motionWeekBuckets_val (db : DB) :
    ∀ b v, (b, v) ∈ motionWeekBuckets db.motion →
      v = (db.motion.filter
        (fun x => decide (sqlYearWeek x.timestamp = b))).length :=
  fun b v h => bucketList_value (fun r => sqlYearWeek r.timestamp) countRows
    (keyDesc (fun s : String => s)) db.motion b v h

/-- C5: every periodic-aggregate route returns one bucket per distinct
bucket value present in the source rows — a label appears exactly when
some row maps to it — and the value at each bucket is the arithmetic mean
of the temperatures (temperature routes) or the row count (motion routes)
of exactly the rows mapping to that bucket. -/
theorem C5_aggregates (db : DB) :
    (get_daily_temperature_average (Except.ok db) =
        ⟨200, Json.arr ((dailyTempBuckets db.temperature).map (avgObj "date"))⟩ ∧
      (∀ b : String, (∃ v, (b, v) ∈ dailyTempBuckets db.temperature) ↔
        ∃ x ∈ db.temperature, sqlDate x.timestamp = b) ∧
      (∀ b v, (b, v) ∈ dailyTempBuckets db.temperature →
        v = ((db.temperature.filter
              (fun x => decide (sqlDate x.timestamp = b))).map
                (fun x => x.temperature)).sum /
            ((db.temperature.filter
              (fun x => decide (sqlDate x.timestamp = b))).length : ℚ))) ∧
    (get_weekly_temperature_average (Except.ok db) =
        ⟨200, Json.arr ((weeklyTempBuckets db.temperature).map (avgObj "week"))⟩ ∧
      (∀ b : String, (∃ v, (b, v) ∈ weeklyTempBuckets db.temperature) ↔
        ∃ x ∈ db.temperature, sqlYearWeek x.timestamp = b) ∧
      (∀ b v, (b, v) ∈ weeklyTempBuckets db.temperature →
        v = ((db.temperature.filter
              (fun x => decide (sqlYearWeek x.timestamp = b))).map
                (fun x => x.temperature)).sum /
            ((db.temperature.filter
              (fun x => decide (sqlYearWeek x.timestamp = b))).length : ℚ))) ∧
    (get_monthly_temperature_average (Except.ok db) =
        ⟨200, Json.arr ((monthlyTempBuckets db.temperature).map (avgObj "month"))⟩ ∧
      (∀ b : String, (∃ v, (b, v) ∈ monthlyTempBuckets db.temperature) ↔
        ∃ x ∈ db.temperature, sqlYearMonth x.timestamp = b) ∧
      (∀ b v, (b, v) ∈ monthlyTempBuckets db.temperature →
        v = ((db.temperature.filter
              (fun x => decide (sqlYearMonth x.timestamp = b))).map
                (fun x => x.temperature)).sum /
            ((db.temperature.filter
              (fun x => decide (sqlYearMonth x.timestamp = b))).length : ℚ))) ∧
    (get_motion_by_day (Except.ok db) =
        ⟨200, Json.arr ((motionDayBuckets db.motion).map (countObj "date"))⟩ ∧
      (∀ b : String, (∃ v, (b, v) ∈ motionDayBuckets db.motion) ↔
        ∃ x ∈ db.motion, sqlDate x.timestamp = b) ∧
      (∀ b v, (b, v) ∈ motionDayBuckets db.motion →
        v = (db.motion.filter
          (fun x => decide (sqlDate x.timestamp = b))).length)) ∧
    (get_motion_by_hour (Except.ok db) =
        ⟨200, Json.arr ((motionHourBuckets db.motion).map (countObj "hour"))⟩ ∧
      (∀ b : String, (∃ v, (b, v) ∈ motionHourBuckets db.motion) ↔
        ∃ x ∈ db.motion, sqlHour x.timestamp = b) ∧
      (∀ b v, (b, v) ∈ motionHourBuckets db.motion →
        v = (db.motion.filter
          (fun x => decide (sqlHour x.timestamp = b))).length)) ∧
    (get_motion_by_week (Except.ok db) =
        ⟨200, Json.arr ((motionWeekBuckets db.motion).map (countObj "week"))⟩ ∧
      (∀ b : String, (∃ v, (b, v) ∈ motionWeekBuckets db.motion) ↔
        ∃ x ∈ db.motion, sqlYearWeek x.timestamp = b) ∧
      (∀ b v, (b, v) ∈ motionWeekBuckets db.motion →
        v = (db.motion.filter
          (fun x => decide (sqlYearWeek x.timestamp = b))).length)) :=
  ⟨⟨rfl, dailyTempBuckets_mem db, dailyTempBuckets_val db⟩,
   ⟨rfl, weeklyTempBuckets_mem db, weeklyTempBuckets_val db⟩,
   ⟨rfl, monthlyTempBuckets_mem db, monthlyTempBuckets_val db⟩,
   ⟨rfl, motionDayBuckets_mem db, motionDayBuckets_val db⟩,
   ⟨rfl, motionHourBuckets_mem db, motionHourBuckets_val db⟩,
   rfl, motionWeekBuckets_mem db, motionWeekBuckets_val db⟩
/-- C5, witness: the 2024-01-06 bucket of the daily temperature average at
the concrete store, with its value given by the arithmetic-mean
formula. -/
theorem C5_aggregates_witness :
    ("2024-01-06", avgTemp (dbEx.temperature.filter
        (fun x => decide (sqlDate x.timestamp = "2024-01-06")))) ∈
      dailyTempBuckets dbEx.temperature ∧
    avgTemp (dbEx.temperature.filter
        (fun x => decide (sqlDate x.timestamp = "2024-01-06"))) =
      ((dbEx.temperature.filter
          (fun x => decide (sqlDate x.timestamp = "2024-01-06"))).map
            (fun x => x.temperature)).sum /
        ((dbEx.temperature.filter
          (fun x => decide (sqlDate x.timestamp = "2024-01-06"))).length : ℚ) := by
  have hb : "2024-01-06" ∈
      (dbEx.temperature.map (fun r => sqlDate r.timestamp)).dedup := by decide
  have hk : "2024-01-06" ∈
      ((dbEx.temperature.map (fun r => sqlDate r.timestamp)).dedup).insertionSort
        (keyDesc (fun s : String => s)) :=
    (List.mem_insertionSort _).2 hb
  have hmem : ("2024-01-06", avgTemp (dbEx.temperature.filter
      (fun x => decide (sqlDate x.timestamp = "2024-01-06")))) ∈
        dailyTempBuckets dbEx.temperature := List.mem_map_of_mem _ hk
  exact ⟨hmem, (C5_aggregates dbEx).1.2.2 "2024-01-06" _ hmem⟩

/-- A bucket list over a non-empty row list is non-empty. -/
theorem bucketList_ne_nil {α β : Type} (key : α → String) (agg : List α → β)
    (r : String → String → Prop) [DecidableRel r] {rows : List α}
    (h : rows ≠ []) : bucketList key agg r rows ≠ [] := by
  intro h0
  apply h
  simp only [bucketList, List.map_eq_nil_iff] at h0
  have hperm := List.perm_insertionSort r ((rows.map key).dedup)
  rw [h0] at hperm
  have h1 := hperm.symm.eq_nil
  rw [List.dedup_eq_nil] at h1
  exact List.map_eq_nil_iff.1 h1

/-- C7: on a non-empty temperature table the peak route returns one table
row whose temperature dominates every row of the table; on a non-empty
motion table the motion peak returns a day present in the table together
with its event count, and that count dominates the count of every day
present in the table. -/
theorem C7_peak (db : DB) (ht : db.temperature ≠ []) (hm : db.motion ≠ []) :
    (∃ r, r ∈ db.temperature ∧
      get_peak_temperature (Except.ok db) = ⟨200, tempRowJson r⟩ ∧
      ∀ x ∈ db.temperature, x.temperature ≤ r.temperature) ∧
    (∃ p : String × ℕ,
      get_peak_motion (Except.ok db) = ⟨200, countObj "date" p⟩ ∧
      (∃ x ∈ db.motion, sqlDate x.timestamp = p.1) ∧
      p.2 = (db.motion.filter
        (fun x => decide (sqlDate x.timestamp = p.1))).length ∧
      (∀ b : String, (∃ x ∈ db.motion, sqlDate x.timestamp = b) →
        (db.motion.filter
          (fun x => decide (sqlDate x.timestamp = b))).length ≤ p.2)) := by
  constructor
  · cases hh : (db.temperature.insertionSort
        (keyDesc (fun r => r.temperature))).head? with
    | none =>
        exfalso
        apply ht
        have h0 := List.head?_eq_none_iff.1 hh
        have hperm := List.perm_insertionSort
          (keyDesc (fun r : TempRow => r.temperature)) db.temperature
        rw [h0] at hperm
        exact hperm.symm.eq_nil
    | some r =>
        obtain ⟨hrmem, hrmax⟩ :=
          head?_sort_keyDesc_max (fun r : TempRow => r.temperature) hh
        refine ⟨r, hrmem, ?_, hrmax⟩
        simp [get_peak_temperature, hh]
  · cases hh : (motionPeakPairs db.motion).head? with
    | none =>
        exfalso
        have h0 : (motionDayBuckets db.motion).insertionSort
            (keyDesc (fun p : String × ℕ => p.2)) = [] :=
          List.head?_eq_none_iff.1 hh
        have hperm := List.perm_insertionSort
          (keyDesc (fun p : String × ℕ => p.2)) (motionDayBuckets db.motion)
        rw [h0] at hperm
        exact bucketList_ne_nil (fun r => sqlDate r.timestamp) countRows
          (keyDesc (fun s : String => s)) hm hperm.symm.eq_nil
    | some p =>
        obtain ⟨hpmem, hpmax⟩ :=
          head?_sort_keyDesc_max (fun q : String × ℕ => q.2) hh
        refine ⟨p, ?_, ?_, ?_, ?_⟩
        · simp [get_peak_motion, hh]
        · exact (bucketList_mem_iff (fun r => sqlDate r.timestamp) countRows
            (keyDesc (fun s : String => s)) db.motion p.1).1 ⟨p.2, hpmem⟩
        · exact bucketList_value (fun r => sqlDate r.timestamp) countRows
            (keyDesc (fun s : String => s)) db.motion p.1 p.2 hpmem
        · intro b hb
          obtain ⟨v, hv⟩ := (bucketList_mem_iff (fun r => sqlDate r.timestamp)
            countRows (keyDesc (fun s : String => s)) db.motion b).2 hb
          have hval := bucketList_value (fun r => sqlDate r.timestamp) countRows
            (keyDesc (fun s : String => s)) db.motion b v hv
          have hle : v ≤ p.2 := hpmax (b, v) hv
          exact le_of_eq_of_le hval.symm hle

/-- C7, witness at the concrete non-empty store. -/
theorem C7_peak_witness :
    (∃ r, r ∈ dbEx.temperature ∧
      get_peak_temperature (Except.ok dbEx) = ⟨200, tempRowJson r⟩ ∧
      ∀ x ∈ dbEx.temperature, x.temperature ≤ r.temperature) ∧
    (∃ p : String × ℕ,
      get_peak_motion (Except.ok dbEx) = ⟨200, countObj "date" p⟩ ∧
      (∃ x ∈ dbEx.motion, sqlDate x.timestamp = p.1) ∧
      p.2 = (dbEx.motion.filter
        (fun x => decide (sqlDate x.timestamp = p.1))).length ∧
      (∀ b : String, (∃ x ∈ dbEx.motion, sqlDate x.timestamp = b) →
        (dbEx.motion.filter
          (fun x => decide (sqlDate x.timestamp = b))).length ≤ p.2)) :=
  C7_peak dbEx (List.cons_ne_nil _ _) (List.cons_ne_nil _ _)

/-- C9: handling any request leaves the two tables exactly as they were —
the response is computed and the same store state is passed onward — and
every SQL statement any route issues is a plain read-only SELECT. -/
theorem C9_read_only :
    (∀ (r : Route) (q : Req) (db : DB), (serve r q db).2 = db) ∧
    (∀ r : Route, (sqlOf r).all isReadOnlySelect = true) := by
  constructor
  · intro r q db
    cases r <;> rfl
  · intro r
    cases r <;> rfl

/-- C9, witness at a concrete route, request and store. -/
theorem C9_read_only_witness :
    (serve Route.temperatureData ⟨none, Except.ok "", none, none⟩ dbEx).2 = dbEx ∧
    (sqlOf Route.tempAvgWeek).all isReadOnlySelect = true :=
  ⟨C9_read_only.1 Route.temperatureData ⟨none, Except.ok "", none, none⟩ dbEx,
   C9_read_only.2 Route.tempAvgWeek⟩
